import Mathlib

/-!
Shallow embedding of the KlevaPay transaction reconciliation and settlement
engine, and proofs of the spec's testable properties against it.

Sources embedded:
- `src/unnamed/part_018` (transactionService.js): `normalizeUnits`,
  `determineFiatOrTokenType`, `resolveMerchant`,
  `TransactionService.recordBlockchainTransaction`,
  `TransactionService.recordFlutterwaveTransaction`;
- `src/services/SettlementService.js`: `resolvePayoutMethod`,
  `resolvePayoutCurrency`, `extractAccountDetails`, `process`,
  `settleWithFiat`, `settleWithCrypto`;
- `src/services/opayService.js` (second concatenated module,
  PaymentService): `sanitizeMetadata`, `handleWebhook`;
- `src/models/Transaction.js` (`src/unnamed/part_010`): the Transaction
  document shape and the `(merchantId, reference)` index used as the
  upsert key.

Modelling conventions: JavaScript strings are `String`, JS numbers are `ℚ`
(all monetary values exercised by the claims are dyadic rationals exactly
representable as IEEE-754 doubles, which we certify where it matters),
`undefined`/missing fields are `Option`, a thrown `Error` is
`Except.error` carrying the message, and MongoDB documents are Lean
structures.  JS truthiness on strings/numbers (`a || b`) is modelled
explicitly: `""` and `0` fall through to the alternative.
-/

namespace KlevaPay

/-- JS `a || b` for possibly-undefined strings: `undefined` and `""` are falsy. -/
def jsOrStr (a : Option String) (b : Option String) : Option String :=
  match a with
  | some s => if s = "" then b else some s
  | none => b

/-- JS `a || d` for a possibly-undefined string against a defined default. -/
def jsOrStrD (a : Option String) (d : String) : String :=
  (jsOrStr a (some d)).getD d

/-- JS `a || b` for possibly-undefined numbers: `undefined` and `0` are falsy. -/
def jsOrQ (a : Option ℚ) (b : Option ℚ) : Option ℚ :=
  match a with
  | some q => if q = 0 then b else some q
  | none => b

/-- JS `String.prototype.toUpperCase` (ASCII fragment, which is all the code uses). -/
def jsToUpper (s : String) : String :=
  ⟨s.data.map Char.toUpper⟩

/-- JS `String.prototype.toLowerCase` (ASCII fragment). -/
def jsToLower (s : String) : String :=
  ⟨s.data.map Char.toLower⟩

/-- Helper for `strIncludes`: does `needle` occur at the head of `hay`? -/
def matchesHere : List Char → List Char → Bool
  | [], _ => true
  | _ :: _, [] => false
  | n :: ns, h :: hs => n = h && matchesHere ns hs

/-- Helper for `strIncludes`: does `needle` occur anywhere in `hay`? -/
def includesAux (needle : List Char) : List Char → Bool
  | [] => needle.isEmpty
  | h :: hs => matchesHere needle (h :: hs) || includesAux needle hs

/-- JS `String.prototype.includes`. -/
def strIncludes (hay needle : String) : Bool :=
  includesAux needle.data hay.data

/-- Port of `normalizeAddress` from transactionService.js: lower-case a wallet
address, passing `undefined` through. -/
def normalizeAddress (address : Option String) : Option String :=
  address.map jsToLower

/-- Port of `determineFiatOrTokenType` from transactionService.js.  The `FIAT`
substring test runs before the `CRYPTO` one, and the crypto-symbol set is
`USDT, USDC, BTC, ETH, WETH, WBTC`. -/
def determineFiatOrTokenType (paymentType tokenSymbol : Option String) : String :=
  let paymentTypeUpper := match paymentType with
    | some p => jsToUpper p
    | none => ""
  if strIncludes paymentTypeUpper "FIAT" then "FIAT"
  else if strIncludes paymentTypeUpper "CRYPTO" then "CRYPTO"
  else match tokenSymbol with
    | some sym =>
      if jsToUpper sym ∈ (["USDT", "USDC", "BTC", "ETH", "WETH", "WBTC"] : List String)
      then "CRYPTO" else "FIAT"
    | none => "FIAT"

/-- Port of `normalizeUnits` from transactionService.js on its main path:
`Number(ethers.formatUnits(value, decimals))`.  `ethers.formatUnits` divides
the base-unit integer by `10 ^ decimals` exactly (string/BigInt arithmetic);
we model the resulting decimal as the exact rational.  The JS `Number(...)`
re-parse is exact whenever the rational is a dyadic with numerator below
`2 ^ 53` (see `floatExactlyRepresentable`). -/
def normalizeUnits (value : ℤ) (decimals : ℕ) : ℚ :=
  (value : ℚ) / (10 : ℚ) ^ decimals

/-- Port of `ethers.parseUnits` at a fixed decimal count, as used by
`CryptoIntegrationService.creditMerchant` (`ethers.parseUnits(amountString, 6)`):
scale the decimal amount by `10 ^ decimals`; the result is a base-unit integer
exactly when the scaled value has no fractional part, else `parseUnits`
rejects the input (it does not round). -/
def parseUnits (amount : ℚ) (decimals : ℕ) : Option ℤ :=
  let scaled := amount * (10 : ℚ) ^ decimals
  if scaled.den = 1 then some scaled.num else none

/-- The rational `q` is exactly representable as an IEEE-754 double: it is a
dyadic rational `m / 2 ^ e` with `|m| < 2 ^ 53` (normal range assumed). -/
def floatExactlyRepresentable (q : ℚ) : Prop :=
  ∃ (m : ℤ) (e : ℕ), q = (m : ℚ) / (2 : ℚ) ^ e ∧ m.natAbs < 2 ^ 53

/-! ## Data model: Merchant and Transaction documents -/

/-- Shape of `merchant.payoutPreferences.accountDetails` as read by
`extractAccountDetails` in SettlementService.js. -/
structure AccountDetails where
  bankName : Option String
  accountNumber : Option String
  accountName : Option String
  routingNumber : Option String
  bankCode : Option String
deriving DecidableEq, Repr

/-- Shape of `merchant.payoutPreferences`. -/
structure PayoutPreferences where
  method : Option String
  currency : Option String
  accountDetails : Option AccountDetails
deriving DecidableEq, Repr

/-- A Merchant document, restricted to the fields this engine reads
(models/Merchant.js is consumed read-only). -/
structure Merchant where
  id : String
  walletAddress : Option String
  businessName : Option String
  payoutPreferences : Option PayoutPreferences
deriving DecidableEq, Repr

/-- Audit trail stored at `transaction.metadata.settlement`.  Every field is
optional because the object starts life as the spread of `{}`. -/
structure SettlementMeta where
  lastRunAt : Option ℕ
  method : Option String
  provider : Option String
  reference : Option String
  status : Option String
  error : Option String
deriving DecidableEq, Repr

/-- The empty `metadata.settlement` object (`{}`). -/
def SettlementMeta.empty : SettlementMeta :=
  ⟨none, none, none, none, none, none⟩

/-- A Transaction document (models/Transaction.js), restricted to the fields
the reconciliation and settlement paths read or write.  `status` is a plain
string: `findOneAndUpdate` with `$set` bypasses the schema's enum validation,
so any string can end up stored. -/
structure Txn where
  merchantId : String
  merchantWalletAddress : Option String
  reference : String
  payer : Option String
  fiatOrTokenType : String
  paymentType : Option String
  amount : Option ℚ
  amountInMinor : Option String
  fiatEquivalent : Option ℚ
  fiatCurrency : Option String
  chargeFee : Option ℚ
  symbol : Option String
  currency : Option String
  method : Option String
  provider : Option String
  status : String
  settlement : Option SettlementMeta
deriving DecidableEq, Repr

/-! ## Merchant Resolver (`resolveMerchant` in transactionService.js) -/

/-- Mongoose `ObjectId.isValid` on a string: 24 hexadecimal characters. -/
def isValidObjectId (s : String) : Bool :=
  s.length = 24 && s.data.all fun c =>
    c.isDigit || (97 ≤ c.toNat && c.toNat ≤ 102) || (65 ≤ c.toNat && c.toNat ≤ 70)

/-- Result shape of `resolveMerchant`. -/
structure MerchantContext where
  merchantId : String
  merchantWalletAddress : Option String
deriving DecidableEq, Repr

/-- Mongoose `Merchant.findById`. -/
def findMerchantById (merchants : List Merchant) (mid : String) : Option Merchant :=
  merchants.find? fun m => m.id == mid

/-- Mongoose `Merchant.findOne({ walletAddress })`. -/
def findMerchantByWallet (merchants : List Merchant) (w : String) : Option Merchant :=
  merchants.find? fun m => m.walletAddress == some w

/-- Port of `resolveMerchant` from transactionService.js.  When `merchantId`
is truthy it is validated as an ObjectId, and the merchant lookup result is
only required to exist when no wallet address accompanies the id (line 75:
`if (!merchant && !merchantWalletAddress) throw`); with a wallet present an
unknown id is accepted unchecked.  Without a `merchantId`, the wallet is
lower-cased and must match a stored merchant. -/
def resolveMerchant (merchants : List Merchant)
    (merchantId₀ merchantWalletAddress₀ : Option String) :
    Except String MerchantContext :=
  let merchantId := jsOrStr merchantId₀ none
  let merchantWalletAddress := jsOrStr merchantWalletAddress₀ none
  match merchantId with
  | some mid =>
    if !isValidObjectId mid then .error "Invalid merchantId provided"
    else
      let merchant := findMerchantById merchants mid
      if merchant.isNone && merchantWalletAddress.isNone then
        .error "Merchant not found for provided merchantId"
      else
        .ok { merchantId := mid
              merchantWalletAddress :=
                normalizeAddress (jsOrStr merchantWalletAddress (merchant.bind (·.walletAddress))) }
  | none =>
    match merchantWalletAddress with
    | none => .error "merchantId or merchantWalletAddress is required"
    | some w =>
      let normalizedWallet := jsToLower w
      match findMerchantByWallet merchants normalizedWallet with
      | none => .error "Merchant not found for wallet address"
      | some merchant =>
        .ok { merchantId := merchant.id, merchantWalletAddress := some normalizedWallet }

/-! ## Ledger Store: the `findOneAndUpdate` upsert keyed by `(merchantId, reference)` -/

/-- The `$set` document built by `recordBlockchainTransaction` /
`recordFlutterwaveTransaction` after `cleanObject`.  Fields those builders
always produce are plain; fields `cleanObject` can drop (source value
`undefined`) are `Option` — an absent field is simply not written by `$set`.
Both builders also always include a fresh `metadata` object (with no
`settlement` key), so applying an update replaces `metadata` wholesale. -/
structure TxnUpdate where
  merchantId : String
  merchantWalletAddress : Option String
  reference : String
  payer : Option String
  fiatOrTokenType : String
  paymentType : Option String
  amount : Option ℚ
  amountInMinor : Option String
  fiatEquivalent : Option ℚ
  fiatCurrency : String
  chargeFee : Option ℚ
  symbol : String
  currency : String
  method : String
  provider : String
  status : String
deriving DecidableEq, Repr

/-- MongoDB `$set` semantics on an existing document: every field present in
the update overwrites the stored value; absent optional fields keep the old
value; `metadata` is replaced by the update's metadata object, which carries
no `settlement` key, so the stored settlement audit trail is cleared. -/
def applyUpdate (t : Txn) (u : TxnUpdate) : Txn :=
  { merchantId := u.merchantId
    merchantWalletAddress := u.merchantWalletAddress.orElse fun _ => t.merchantWalletAddress
    reference := u.reference
    payer := u.payer.orElse fun _ => t.payer
    fiatOrTokenType := u.fiatOrTokenType
    paymentType := u.paymentType.orElse fun _ => t.paymentType
    amount := u.amount.orElse fun _ => t.amount
    amountInMinor := u.amountInMinor.orElse fun _ => t.amountInMinor
    fiatEquivalent := u.fiatEquivalent.orElse fun _ => t.fiatEquivalent
    fiatCurrency := some u.fiatCurrency
    chargeFee := u.chargeFee.orElse fun _ => t.chargeFee
    symbol := some u.symbol
    currency := some u.currency
    method := some u.method
    provider := some u.provider
    status := u.status
    settlement := none }

/-- Upsert insert branch (`upsert: true, setDefaultsOnInsert: true`): the new
document is the update plus schema defaults for fields the update omits
(`chargeFee` defaults to `0`). -/
def insertOfUpdate (u : TxnUpdate) : Txn :=
  { merchantId := u.merchantId
    merchantWalletAddress := u.merchantWalletAddress
    reference := u.reference
    payer := u.payer
    fiatOrTokenType := u.fiatOrTokenType
    paymentType := u.paymentType
    amount := u.amount
    amountInMinor := u.amountInMinor
    fiatEquivalent := u.fiatEquivalent
    fiatCurrency := some u.fiatCurrency
    chargeFee := some (u.chargeFee.getD 0)
    symbol := some u.symbol
    currency := some u.currency
    method := some u.method
    provider := some u.provider
    status := u.status
    settlement := none }

/-- Does the stored document match the upsert key `(merchantId, reference)`? -/
def matchKey (t : Txn) (merchantId reference : String) : Bool :=
  t.merchantId == merchantId && t.reference == reference

/-- Mongoose `Transaction.findOneAndUpdate({merchantId, reference}, {$set: u},
{upsert: true})` over a ledger modelled as the list of stored documents: the
first matching document is updated in place; if none matches, a new document
is inserted. -/
def upsert : List Txn → TxnUpdate → List Txn
  | [], u => [insertOfUpdate u]
  | t :: ts, u =>
    if matchKey t u.merchantId u.reference then applyUpdate t u :: ts
    else t :: upsert ts u

/-- The document `findOneAndUpdate` returns with `new: true`. -/
def upsertReturned (ledger : List Txn) (u : TxnUpdate) : Txn :=
  match ledger.find? (fun t => matchKey t u.merchantId u.reference) with
  | some t => applyUpdate t u
  | none => insertOfUpdate u

/-- Number of stored documents for a `(merchantId, reference)` pair. -/
def countForKey (ledger : List Txn) (merchantId reference : String) : ℕ :=
  (ledger.filter fun t => matchKey t merchantId reference).length

/-! ## Event Normalizer: the blockchain and Flutterwave update builders -/

/-- Decoded `PaymentRecorded` contract event payload (the shape
`recordBlockchainTransaction` reads).  Integer fields arrive as BigInt
base-unit values. -/
structure ChainEvent where
  payer : Option String
  merchant : Option String
  amount : Option ℤ
  tokenSymbol : Option String
  fiatEquivalent : Option ℤ
  fiatCurrency : Option String
  txRef : Option String
  timestamp : Option ℕ
  paymentType : Option String
  status : Option String
  chargeFee : Option ℤ
deriving DecidableEq, Repr

/-- The `$set` update that `recordBlockchainTransaction` builds from a chain
event (lines 125–162 of transactionService.js): status defaults to `PENDING`
only when the event carries no (truthy) status, currency falls back through
`tokenSymbol || paymentType || 'USDT'`, amounts are normalized from base
units, and `chargeFee` gets `|| 0`. -/
def buildBlockchainUpdate (ctx : MerchantContext) (e : ChainEvent)
    (decimals fiatDecimals : ℕ) : TxnUpdate :=
  let fiatOrTokenType := determineFiatOrTokenType e.paymentType e.tokenSymbol
  let normalizedStatus := jsToUpper (jsOrStrD e.status "PENDING")
  let normalizedCurrency := jsToUpper (jsOrStrD e.tokenSymbol (jsOrStrD e.paymentType "USDT"))
  { merchantId := ctx.merchantId
    merchantWalletAddress := ctx.merchantWalletAddress
    reference := (e.txRef).getD ""
    payer := normalizeAddress e.payer
    fiatOrTokenType := fiatOrTokenType
    paymentType := e.paymentType
    amount := e.amount.map (normalizeUnits · decimals)
    amountInMinor := e.amount.map toString
    fiatEquivalent := e.fiatEquivalent.map (normalizeUnits · fiatDecimals)
    fiatCurrency := if (jsOrStr e.fiatCurrency none).isSome
                    then jsToUpper ((jsOrStr e.fiatCurrency none).getD "") else "NGN"
    chargeFee := some ((e.chargeFee.map (normalizeUnits · decimals)).getD 0)
    symbol := normalizedCurrency
    currency := normalizedCurrency
    method := "CRYPTO"
    provider := "CONTRACT"
    status := normalizedStatus }

/-! ## Settlement Dispatcher (SettlementService.js) -/

/-- An external funds-moving call issued during settlement: either the
Flutterwave `POST /transfers` or the on-chain `creditMerchant` invocation. -/
inductive ExtCall
  | fiatTransfer (account_bank account_number : String) (amount : ℚ)
      (currency : String) (reference : String)
  | creditMerchant (wallet : String) (amount : ℚ) (chargeFeeUnits : ℤ) (txRef : String)
deriving DecidableEq, Repr

/-- Environment of a settlement run: the merchant store, the price-feed
`convert` function (throws on unsupported pair / feed failure), the outcome
of the Flutterwave transfer POST, the outcome of the on-chain credit, and
the wall clock (`Date.now()`). -/
structure SettleEnv where
  merchants : List Merchant
  convert : String → String → ℚ → Except String ℚ
  flwTransfer : Except String Unit
  creditMerchant : Except String String
  now : ℕ

/-- Port of `resolvePayoutMethod`: the merchant's payout method lower-cased,
defaulting to `bank_transfer` when falsy. -/
def resolvePayoutMethod (m : Merchant) : String :=
  match jsOrStr (m.payoutPreferences.bind (·.method)) none with
  | none => "bank_transfer"
  | some s => jsToLower s

/-- Port of `resolvePayoutCurrency`: merchant preference, else the
transaction's `fiatCurrency`, else `currency`, else `NGN`, upper-cased. -/
def resolvePayoutCurrency (m : Merchant) (t : Txn) : String :=
  match jsOrStr (m.payoutPreferences.bind (·.currency)) none with
  | some p => jsToUpper p
  | none =>
    match jsOrStr t.fiatCurrency none with
    | some f => jsToUpper f
    | none =>
      match jsOrStr t.currency none with
      | some c => jsToUpper c
      | none => "NGN"

/-- Port of `extractAccountDetails`: account details with `bankCode` falling
back to `routingNumber`. -/
def extractAccountDetails (m : Merchant) : AccountDetails :=
  let d := (m.payoutPreferences.bind (·.accountDetails)).getD ⟨none, none, none, none, none⟩
  { bankName := d.bankName
    accountNumber := d.accountNumber
    accountName := d.accountName
    routingNumber := d.routingNumber
    bankCode := jsOrStr d.bankCode d.routingNumber }

/-- JS `Number(x.toFixed(n))` at `n` decimals: round half up at the `n`-th
decimal place.  Exact for the dyadic amounts exercised here. -/
def toFixedQ (q : ℚ) (n : ℕ) : ℚ :=
  ((round (q * (10 : ℚ) ^ n) : ℤ) : ℚ) / (10 : ℚ) ^ n

/-- The expression `(transaction.fiatCurrency || transaction.currency ||
'NGN').toUpperCase()` shared by both settlement paths. -/
def txnFallbackCurrency (t : Txn) : String :=
  jsToUpper (jsOrStrD (jsOrStr t.fiatCurrency t.currency) "NGN")

/-- Result shape (`provider`, `reference`) of a settlement channel call. -/
structure SettleResult where
  provider : String
  reference : String
deriving DecidableEq, Repr

/-- Port of `SettlementService.settleWithFiat`.  Returns the external calls
actually issued together with the outcome.  Both conversion steps swallow
`convert` failures: the first falls back to the transaction currency, the
second leaves amount and currency untouched, and in either case the transfer
is still submitted. -/
def settleWithFiat (env : SettleEnv) (t : Txn) (m : Merchant) (targetCurrency : String) :
    List ExtCall × Except String SettleResult :=
  let account := extractAccountDetails m
  match jsOrStr account.accountNumber none with
  | none => ([], .error "Merchant is missing payout account number")
  | some accountNumber =>
    match jsOrStr account.bankCode none with
    | none => ([], .error "Merchant is missing bank code/routing number required for payout")
    | some bankCode =>
      let preferredCurrency := jsToUpper (jsOrStrD (some targetCurrency) "NGN")
      let txnCurrency := txnFallbackCurrency t
      match jsOrQ t.fiatEquivalent t.amount with
      | none => ([], .error "Unable to resolve fiat amount for settlement")
      | some baseAmount =>
        if baseAmount ≤ 0 then ([], .error "Unable to resolve fiat amount for settlement")
        else
          let step1 : ℚ × String :=
            if preferredCurrency ≠ txnCurrency then
              match env.convert txnCurrency preferredCurrency baseAmount with
              | .ok w => (w, preferredCurrency)
              | .error _ => (baseAmount, txnCurrency)
            else (baseAmount, txnCurrency)
          let step2 : ℚ × String :=
            if step1.2 ≠ "NGN" then
              match env.convert step1.2 "NGN" step1.1 with
              | .ok w => (w, "NGN")
              | .error _ => step1
            else step1
          let reference := "PAYOUT-" ++ t.reference ++ "-" ++ toString env.now
          let call := ExtCall.fiatTransfer bankCode accountNumber
            (toFixedQ step2.1 2) step2.2 reference
          match env.flwTransfer with
          | .error msg => ([call], .error ("Flutterwave transfer failed: " ++ msg))
          | .ok _ => ([call], .ok { provider := "FLUTTERWAVE", reference := reference })

/-- Port of `SettlementService.settleWithCrypto`.  A failed `convert` to USDT
propagates (is rethrown), so no credit call is issued in that case. -/
def settleWithCrypto (env : SettleEnv) (t : Txn) (m : Merchant) :
    List ExtCall × Except String SettleResult :=
  match jsOrStr m.walletAddress none with
  | none => ([], .error "Merchant wallet address is required for crypto settlement")
  | some wallet =>
    let baseCurrency := txnFallbackCurrency t
    match jsOrQ t.fiatEquivalent t.amount with
    | none => ([], .error "Unable to resolve settlement amount for crypto payout")
    | some baseAmount =>
      if baseAmount ≤ 0 then ([], .error "Unable to resolve settlement amount for crypto payout")
      else
        let usdtAmount : Except String ℚ :=
          if baseCurrency = "USDT" then .ok baseAmount
          else env.convert baseCurrency "USDT" baseAmount
        match usdtAmount with
        | .error e => ([], .error e)
        | .ok u =>
          if u ≤ 0 then ([], .error "Invalid USDT conversion result for settlement")
          else
            let amountFormatted := toFixedQ u 6
            let chargeFee := (jsOrQ t.chargeFee (some 0)).getD 0
            let chargeFeeUnits : ℤ := round (chargeFee * (1000000 : ℚ))
            let call := ExtCall.creditMerchant wallet amountFormatted chargeFeeUnits t.reference
            match env.creditMerchant with
            | .error e => ([call], .error ("creditMerchant failed: " ++ e))
            | .ok _ => ([call], .ok { provider := "CONTRACT", reference := t.reference })

/-- The conditional guard update
`updateOne({_id, status: {$ne: 'SETTLED'}}, {$set: {status: 'PROCESSING'}})`. -/
def condMarkProcessing (t : Txn) : Txn :=
  if t.status ≠ "SETTLED" then { t with status := "PROCESSING" } else t

/-- Port of `SettlementService.process` as a single sequential run over the
stored document.  Returns the post-run stored document, the external calls
issued, and the value returned / error thrown.  The only early idempotence
exit is `status === 'SETTLED'`; a `PROCESSING` status does not short-circuit.
On success the previous `settlement.error` survives the spread (the success
update does not clear it); on failure the error message is recorded and the
error rethrown. -/
def process (env : SettleEnv) (stored : Option Txn) :
    Option Txn × List ExtCall × Except String (Option SettlementMeta) :=
  match stored with
  | none => (none, [], .ok none)
  | some transaction =>
    if transaction.status = "SETTLED" then
      (some transaction, [], .ok transaction.settlement)
    else
      match findMerchantById env.merchants transaction.merchantId with
      | none => (some transaction, [], .error "Merchant not found for settlement")
      | some merchant =>
        let method := resolvePayoutMethod merchant
        let currency := resolvePayoutCurrency merchant transaction
        let marked := condMarkProcessing transaction
        let settlementMetadata := transaction.settlement.getD SettlementMeta.empty
        let attempt :=
          if method = "crypto" then settleWithCrypto env transaction merchant
          else settleWithFiat env transaction merchant currency
        match attempt.2 with
        | .ok result =>
          let metadataUpdate := { settlementMetadata with
            lastRunAt := some env.now
            method := some (if method = "crypto" then "CRYPTO" else "FIAT")
            provider := some result.provider
            reference := some result.reference
            status := some "SUCCESS" }
          (some { marked with status := "SETTLED", settlement := some metadataUpdate },
           attempt.1, .ok (some metadataUpdate))
        | .error e =>
          let metadataUpdate := { settlementMetadata with
            lastRunAt := some env.now
            method := some (if method = "crypto" then "CRYPTO" else "FIAT")
            status := some "FAILED"
            error := some e }
          (some { marked with status := "FAILED", settlement := some metadataUpdate },
           attempt.1, .error e)

/-! ## Reconciliation Coordinator (TransactionService) -/

/-- Options object accepted by the two record functions (merchant context and
decimal bases; chain metadata is omitted as no claim touches it). -/
structure RecordOptions where
  merchantId : Option String
  merchantWalletAddress : Option String
  decimals : ℕ
  fiatDecimals : ℕ
deriving Repr

/-- Outcome of a reconciliation call: what the caller receives (the upserted
document and the new ledger, or the thrown error), paired with the outcome of
the asynchronously fired settlement (`SettlementService.process(tx._id)
.catch(log)`), whose calls and result are observable only through the store,
never through the caller's response. -/
def RecordOutcome :=
  Except String (Txn × List Txn) × (List ExtCall × Except String (Option SettlementMeta))

/-- Port of `TransactionService.recordBlockchainTransaction`: require a
truthy `txRef`, resolve the merchant, upsert by `(merchantId, reference)`,
then fire settlement in the background with its promise rejection caught and
logged — the caller's result is the upserted transaction regardless of the
settlement outcome. -/
def recordBlockchainTransaction (env : SettleEnv) (ledger : List Txn)
    (e : ChainEvent) (opts : RecordOptions) : RecordOutcome :=
  match jsOrStr e.txRef none with
  | none => (.error "Missing txRef in PaymentRecorded event payload", ([], .ok none))
  | some _ =>
    match resolveMerchant env.merchants opts.merchantId
        (jsOrStr opts.merchantWalletAddress e.merchant) with
    | .error msg => (.error msg, ([], .ok none))
    | .ok ctx =>
      let u := buildBlockchainUpdate ctx e opts.decimals opts.fiatDecimals
      let ledgerAfter := upsert ledger u
      let transaction := upsertReturned ledger u
      let background := process env (some transaction)
      (.ok (transaction, ledgerAfter), (background.2.1, background.2.2))

/-- The `meta` object of a Flutterwave webhook, with the three wallet spellings
`handleWebhook` probes. -/
structure WebhookMeta where
  merchantId : Option String
  merchantWalletAddress : Option String
  merchant_wallet : Option String
  walletAddress : Option String
deriving DecidableEq, Repr

/-- The `data` object of a Flutterwave webhook payload, restricted to the
fields `recordFlutterwaveTransaction` and `handleWebhook` read. -/
structure FlwData where
  tx_ref : Option String
  txRef : Option String
  reference : Option String
  status : Option String
  currency : Option String
  payment_type : Option String
  paymentType : Option String
  payment_method : Option String
  amount : Option ℚ
  charged_amount : Option ℚ
  app_fee : Option ℚ
  fee : Option ℚ
  customerEmail : Option String
  customerName : Option String
  meta : WebhookMeta
deriving DecidableEq, Repr

/-- A Flutterwave webhook body: the nested `data` object plus the top-level
fields used as fallbacks. -/
structure FlwBody where
  data : Option FlwData
  tx_ref : Option String
  status : Option String
  currency : Option String
deriving DecidableEq, Repr

/-- An all-absent `data` object, standing in for `payload.data || payload`
when the payload has no nested `data`. -/
def FlwData.empty : FlwData :=
  ⟨none, none, none, none, none, none, none, none, none, none, none, none, none,
   none, ⟨none, none, none, none⟩⟩

/-- Resolution chain `data.tx_ref || data.txRef || data.reference ||
payload.tx_ref`. -/
def flwTxRef (b : FlwBody) : Option String :=
  let d := b.data.getD FlwData.empty
  jsOrStr d.tx_ref (jsOrStr d.txRef (jsOrStr d.reference b.tx_ref))

/-- The `$set` update built by `recordFlutterwaveTransaction` (lines 215–252
of transactionService.js). -/
def buildFlutterwaveUpdate (ctx : MerchantContext) (b : FlwBody) (txRef : String)
    (optPaymentType optMethod optPayer : Option String) (optChargeFee : Option ℚ)
    (fiatDecimals : ℕ) : TxnUpdate :=
  let d := b.data.getD FlwData.empty
  let currency := jsToUpper (jsOrStrD (jsOrStr d.currency b.currency) "NGN")
  let status := jsToUpper (jsOrStrD (jsOrStr d.status b.status) "PENDING")
  let paymentType := jsOrStrD (jsOrStr d.payment_type (jsOrStr d.paymentType optPaymentType))
    "FIAT_TO_FIAT"
  let method := jsToUpper (jsOrStrD (jsOrStr d.payment_type (jsOrStr d.payment_method optMethod))
    "FIAT")
  let chargedAmount := d.charged_amount
  let amount := d.amount.orElse fun _ => chargedAmount
  let fee := (d.app_fee.orElse fun _ => d.fee).orElse fun _ => optChargeFee
  { merchantId := ctx.merchantId
    merchantWalletAddress := ctx.merchantWalletAddress
    reference := txRef
    payer := jsOrStr d.customerEmail (jsOrStr d.customerName optPayer)
    fiatOrTokenType := "FIAT"
    paymentType := some paymentType
    amount := amount
    amountInMinor := amount.map fun a => toString (round (a * (10 : ℚ) ^ fiatDecimals) : ℤ)
    fiatEquivalent := chargedAmount.orElse fun _ => amount
    fiatCurrency := currency
    chargeFee := fee
    symbol := currency
    currency := currency
    method := method
    provider := "FLUTTERWAVE"
    status := status }

/-- Port of `TransactionService.recordFlutterwaveTransaction`: resolve the
`tx_ref`, resolve the merchant from the options only, upsert, and fire
settlement in the background exactly as the blockchain path does. -/
def recordFlutterwaveTransaction (env : SettleEnv) (ledger : List Txn)
    (b : FlwBody) (opts : RecordOptions)
    (optPaymentType optMethod optPayer : Option String) (optChargeFee : Option ℚ) :
    RecordOutcome :=
  match flwTxRef b with
  | none => (.error "Unable to resolve tx_ref from Flutterwave payload", ([], .ok none))
  | some txRef =>
    match resolveMerchant env.merchants opts.merchantId opts.merchantWalletAddress with
    | .error msg => (.error msg, ([], .ok none))
    | .ok ctx =>
      let u := buildFlutterwaveUpdate ctx b txRef optPaymentType optMethod optPayer
        optChargeFee opts.fiatDecimals
      let ledgerAfter := upsert ledger u
      let transaction := upsertReturned ledger u
      let background := process env (some transaction)
      (.ok (transaction, ledgerAfter), (background.2.1, background.2.2))

/-! ## Webhook handler (`PaymentService.handleWebhook`, second module of
src/services/opayService.js) -/

/-- Port of `sanitizeMetadata` on a single string field: `undefined`, `null`
and `""` are dropped. -/
def sanitizeStr (o : Option String) : Option String :=
  jsOrStr o none

/-- The `body?.data?.meta || {}` read at the top of `handleWebhook`. -/
def webhookMeta (body : FlwBody) : WebhookMeta :=
  (body.data.map (·.meta)).getD ⟨none, none, none, none⟩

/-- The sanitized `merchantOptions.merchantId` of `handleWebhook`. -/
def webhookMerchantId (body : FlwBody) : Option String :=
  sanitizeStr (webhookMeta body).merchantId

/-- The sanitized `merchantOptions.merchantWalletAddress` of `handleWebhook`:
`meta.merchantWalletAddress || meta.merchant_wallet || meta.walletAddress`. -/
def webhookMerchantWallet (body : FlwBody) : Option String :=
  sanitizeStr (jsOrStr (webhookMeta body).merchantWalletAddress
    (jsOrStr (webhookMeta body).merchant_wallet (webhookMeta body).walletAddress))

/-- Port of `PaymentService.handleWebhook`.  After signature verification it
extracts the merchant context from `body.data.meta`; when neither a merchant
id nor any wallet-address spelling survives sanitization it returns the body
immediately without touching the ledger.  Otherwise it records the
transaction, swallowing any persistence error, and returns the body either
way.  The result pairs the caller-visible outcome with the background
settlement outcome (empty when no record call was made). -/
def handleWebhook (env : SettleEnv) (ledger : List Txn) (secret : String)
    (verifHash : Option String) (body : FlwBody) :
    Except String (FlwBody × List Txn) × (List ExtCall × Except String (Option SettlementMeta)) :=
  if verifHash ≠ some secret then (.error "unauthorized", ([], .ok none))
  else
    let merchantId := webhookMerchantId body
    let merchantWalletAddress := webhookMerchantWallet body
    if merchantId.isNone && merchantWalletAddress.isNone then
      (.ok (body, ledger), ([], .ok none))
    else
      let opts : RecordOptions :=
        { merchantId := merchantId
          merchantWalletAddress := merchantWalletAddress
          decimals := 6
          fiatDecimals := 2 }
      let recorded := recordFlutterwaveTransaction env ledger body opts none none none none
      match recorded.1 with
      | .ok (_, ledgerAfter) => (.ok (body, ledgerAfter), recorded.2)
      | .error _ => (.ok (body, ledger), recorded.2)

/-! ## Interleaving model of two concurrent `SettlementService.process` runs

Each invocation of `process` on the same transaction id passes through four
store-touching stages, in source order:

1. `Transaction.findById` (line 52) — read the stored status;
2. the `SETTLED` short-circuit (line 58) / the conditional guard update
   `updateOne({_id, status: {$ne: 'SETTLED'}}, {$set: {status: 'PROCESSING'}})`
   (lines 78–81) — note the code never inspects the guard's matched count and
   only short-circuits on the status it read in stage 1;
3. the external payout call (`settleWithFiat` POST or `settleWithCrypto`
   credit), modelled as setting the invocation's `paid` flag (merchant
   resolution and the provider call are assumed to succeed, the scenario the
   claim quantifies over);
4. `findByIdAndUpdate` writing `status: 'SETTLED'` (lines 103–108).

Two such invocations are interleaved over the shared stored status by an
arbitrary schedule. -/

/-- Program counter of one `process` invocation: the next stage to execute. -/
inductive Stage
  | atRead
  | atGuard
  | atPayout
  | atFinalize
  | finished
deriving DecidableEq, Repr

/-- Local state of one `process` invocation: its next stage, the status its
`findById` observed, and whether it has issued the external payout call. -/
structure Inv where
  pc : Stage
  observed : Option String
  paid : Bool
deriving DecidableEq, Repr

/-- An invocation that has not started. -/
def Inv.init : Inv :=
  ⟨Stage.atRead, none, false⟩

/-- Execute one stage of one invocation against the shared stored status,
returning the new shared status and the invocation's new local state. -/
def stepInv (shared : String) (i : Inv) : String × Inv :=
  match i.pc with
  | .atRead => (shared, { i with pc := .atGuard, observed := some shared })
  | .atGuard =>
    if i.observed = some "SETTLED" then (shared, { i with pc := .finished })
    else ((if shared ≠ "SETTLED" then "PROCESSING" else shared), { i with pc := .atPayout })
  | .atPayout => (shared, { i with pc := .atFinalize, paid := true })
  | .atFinalize => ("SETTLED", { i with pc := .finished })
  | .finished => (shared, i)

/-- Shared state of the race: the stored transaction status and the two
invocations. -/
structure Race where
  txStatus : String
  invA : Inv
  invB : Inv
deriving DecidableEq, Repr

/-- Both invocations start against a `PENDING` transaction. -/
def Race.init : Race :=
  ⟨"PENDING", Inv.init, Inv.init⟩

/-- One scheduler step: `true` advances invocation A, `false` invocation B. -/
def raceStep (r : Race) (who : Bool) : Race :=
  if who then
    let (s, a) := stepInv r.txStatus r.invA
    { r with txStatus := s, invA := a }
  else
    let (s, b) := stepInv r.txStatus r.invB
    { r with txStatus := s, invB := b }

/-- Run a schedule. -/
def runRace : List Bool → Race → Race
  | [], r => r
  | w :: ws, r => runRace ws (raceStep r w)

/-- Number of external payout calls issued so far. -/
def payoutCount (r : Race) : ℕ :=
  (if r.invA.paid then 1 else 0) + (if r.invB.paid then 1 else 0)

/-- Local invariant of one invocation: its `paid` flag is determined by its
stage and, once finished, by whether the status it observed was `SETTLED`. -/
def InvOk (i : Inv) : Prop :=
  match i.pc with
  | .atRead => i.observed = none ∧ i.paid = false
  | .atGuard => i.observed.isSome ∧ i.paid = false
  | .atPayout => (∃ s, i.observed = some s ∧ s ≠ "SETTLED") ∧ i.paid = false
  | .atFinalize => (∃ s, i.observed = some s ∧ s ≠ "SETTLED") ∧ i.paid = true
  | .finished => (i.paid = true ↔ ∃ s, i.observed = some s ∧ s ≠ "SETTLED")

/-- Both invocations satisfy their local invariant. -/
def RaceOk (r : Race) : Prop :=
  InvOk r.invA ∧ InvOk r.invB

/-- A `$set` update in which every optional field is present, i.e. one built
from an event that carries payer, payment type and all amounts (`cleanObject`
dropped nothing). -/
def CompleteUpdate (u : TxnUpdate) : Prop :=
  u.merchantWalletAddress.isSome ∧ u.payer.isSome ∧ u.paymentType.isSome ∧
  u.amount.isSome ∧ u.amountInMinor.isSome ∧ u.fiatEquivalent.isSome ∧
  u.chargeFee.isSome

/-! ## Concrete fixtures for witnesses and counterexamples -/

/-- A merchant with crypto payout preferences. -/
def merchantCryptoFix : Merchant :=
  { id := "aaaaaaaaaaaaaaaaaaaaaaaa"
    walletAddress := some "0xb0b1b2b3b4b5b6b7b8b9c0c1c2c3c4c5c6c7c8c9"
    businessName := some "Kleva Crypto Store"
    payoutPreferences := some
      { method := some "crypto"
        currency := some "USDT"
        accountDetails := none } }

/-- A merchant with bank-transfer payout preferences in USD. -/
def merchantFiatFix : Merchant :=
  { id := "bbbbbbbbbbbbbbbbbbbbbbbb"
    walletAddress := none
    businessName := some "Kleva Fiat Store"
    payoutPreferences := some
      { method := some "bank_transfer"
        currency := some "USD"
        accountDetails := some
          { bankName := some "GTBank"
            accountNumber := some "0123456789"
            accountName := some "Kleva Fiat Store"
            routingNumber := none
            bankCode := some "058" } } }

/-- An already-settled transaction belonging to `merchantCryptoFix`. -/
def settledTxnFix : Txn :=
  { merchantId := "aaaaaaaaaaaaaaaaaaaaaaaa"
    merchantWalletAddress := some "0xb0b1b2b3b4b5b6b7b8b9c0c1c2c3c4c5c6c7c8c9"
    reference := "KP-1"
    payer := some "0xdeadbeefdeadbeefdeadbeefdeadbeefdeadbeef"
    fiatOrTokenType := "CRYPTO"
    paymentType := some "CRYPTO_TO_CRYPTO"
    amount := some 5
    amountInMinor := some "5000000"
    fiatEquivalent := some 5
    fiatCurrency := some "NGN"
    chargeFee := some 0
    symbol := some "USDT"
    currency := some "USDT"
    method := some "CRYPTO"
    provider := some "CONTRACT"
    status := "SETTLED"
    settlement := some
      { lastRunAt := some 5
        method := some "CRYPTO"
        provider := some "CONTRACT"
        reference := some "KP-1"
        status := some "SUCCESS"
        error := none } }

/-- A pending NGN transaction belonging to `merchantFiatFix` (whose preferred
payout currency is USD, so settlement needs an NGN to USD conversion). -/
def ngnFiatTxnFix : Txn :=
  { merchantId := "bbbbbbbbbbbbbbbbbbbbbbbb"
    merchantWalletAddress := none
    reference := "KP-9"
    payer := some "payer@example.com"
    fiatOrTokenType := "FIAT"
    paymentType := some "FIAT_TO_FIAT"
    amount := some 1000
    amountInMinor := some "100000"
    fiatEquivalent := some 1000
    fiatCurrency := some "NGN"
    chargeFee := some 0
    symbol := some "NGN"
    currency := some "NGN"
    method := some "BANK"
    provider := some "FLUTTERWAVE"
    status := "PENDING"
    settlement := none }

/-- A pending NGN transaction belonging to `merchantCryptoFix` (crypto payout,
so settlement needs an NGN to USDT conversion). -/
def ngnCryptoTxnFix : Txn :=
  { merchantId := "aaaaaaaaaaaaaaaaaaaaaaaa"
    merchantWalletAddress := some "0xb0b1b2b3b4b5b6b7b8b9c0c1c2c3c4c5c6c7c8c9"
    reference := "KP-7"
    payer := some "0xdeadbeefdeadbeefdeadbeefdeadbeefdeadbeef"
    fiatOrTokenType := "FIAT"
    paymentType := some "FIAT_TO_CRYPTO"
    amount := some 1000
    amountInMinor := some "100000"
    fiatEquivalent := some 1000
    fiatCurrency := some "NGN"
    chargeFee := some 0
    symbol := some "NGN"
    currency := some "NGN"
    method := some "BANK"
    provider := some "FLUTTERWAVE"
    status := "PENDING"
    settlement := none }

/-- A fully-populated `PaymentRecorded` chain event for reference `KP-1`. -/
def chainEventFix : ChainEvent :=
  { payer := some "0xDEADBEEFdeadbeefDEADBEEFdeadbeefDEADBEEF"
    merchant := some "0xB0B1B2B3B4B5B6B7B8B9C0C1C2C3C4C5C6C7C8C9"
    amount := some 5000000
    tokenSymbol := some "USDT"
    fiatEquivalent := some 750000
    fiatCurrency := some "NGN"
    txRef := some "KP-1"
    timestamp := some 1700000000
    paymentType := some "CRYPTO_TO_CRYPTO"
    status := some "successful"
    chargeFee := some 10000
    }

/-- A stale re-delivery for reference `KP-1` that carries no status field. -/
def staleChainEventFix : ChainEvent :=
  { payer := some "0xDEADBEEFdeadbeefDEADBEEFdeadbeefDEADBEEF"
    merchant := some "0xB0B1B2B3B4B5B6B7B8B9C0C1C2C3C4C5C6C7C8C9"
    amount := some 5000000
    tokenSymbol := some "USDT"
    fiatEquivalent := some 750000
    fiatCurrency := some "NGN"
    txRef := some "KP-1"
    timestamp := some 1700000000
    paymentType := some "CRYPTO_TO_CRYPTO"
    status := none
    chargeFee := some 10000
    }

/-- Merchant context resolved for `merchantCryptoFix`. -/
def ctxCryptoFix : MerchantContext :=
  { merchantId := "aaaaaaaaaaaaaaaaaaaaaaaa"
    merchantWalletAddress := some "0xb0b1b2b3b4b5b6b7b8b9c0c1c2c3c4c5c6c7c8c9" }

/-- Default record options: no explicit merchant, default decimal bases. -/
def optsFix : RecordOptions :=
  { merchantId := none
    merchantWalletAddress := none
    decimals := 6
    fiatDecimals := 2 }

/-- An environment in which every external dependency succeeds and `convert`
multiplies by a fixed NGN-per-USDT style rate table collapsed to identity. -/
def envOkFix : SettleEnv :=
  { merchants := [merchantCryptoFix, merchantFiatFix]
    convert := fun _ _ amount => .ok amount
    flwTransfer := .ok ()
    creditMerchant := .ok "0xtxhash"
    now := 111 }

/-- An environment whose price feed is down: every `convert` call throws. -/
def envFeedDownFix : SettleEnv :=
  { merchants := [merchantCryptoFix, merchantFiatFix]
    convert := fun src dst _ =>
      .error ("Failed to read price feed for " ++ src ++ "/" ++ dst)
    flwTransfer := .ok ()
    creditMerchant := .ok "0xtxhash"
    now := 111 }

/-- An environment with an empty merchant store. -/
def envNoMerchantsFix : SettleEnv :=
  { merchants := []
    convert := fun _ _ amount => .ok amount
    flwTransfer := .ok ()
    creditMerchant := .ok "0xtxhash"
    now := 111 }

/-- A webhook body whose `meta` carries no merchant context at all. -/
def orphanWebhookBodyFix : FlwBody :=
  { data := some
      { tx_ref := some "KP-55"
        txRef := none
        reference := none
        status := some "successful"
        currency := some "NGN"
        payment_type := some "card"
        paymentType := none
        payment_method := none
        amount := some 1000
        charged_amount := some 1014
        app_fee := some 14
        fee := none
        customerEmail := some "payer@example.com"
        customerName := some "Pat Payer"
        meta := ⟨none, none, none, none⟩ }
    tx_ref := none
    status := none
    currency := none }

/-- Is this result a success (`true`) or a thrown error (`false`)? -/
def exceptOk {α : Type} : Except String α → Bool
  | .ok _ => true
  | .error _ => false

/-- The merchant id attached by a successful reconciliation result. -/
def recordResultMerchantId : Except String (Txn × List Txn) → Option String
  | .ok (t, _) => some t.merchantId
  | .error _ => none

/-- Record options carrying a syntactically valid but unknown merchantId. -/
def optsUnknownIdFix : RecordOptions :=
  { merchantId := some "cccccccccccccccccccccccc"
    merchantWalletAddress := none
    decimals := 6
    fiatDecimals := 2 }

/-- Record options carrying a syntactically valid but unknown merchantId plus
a wallet address (so `resolveMerchant` accepts them). -/
def optsUnknownIdWalletFix : RecordOptions :=
  { merchantId := some "cccccccccccccccccccccccc"
    merchantWalletAddress := some "0xB0B1B2B3B4B5B6B7B8B9C0C1C2C3C4C5C6C7C8C9"
    decimals := 6
    fiatDecimals := 2 }

/-- A webhook body whose `meta` carries a merchant id and wallet address. -/
def merchantWebhookBodyFix : FlwBody :=
  { data := some
      { tx_ref := some "KP-55"
        txRef := none
        reference := none
        status := some "successful"
        currency := some "NGN"
        payment_type := some "card"
        paymentType := none
        payment_method := none
        amount := some 1000
        charged_amount := some 1014
        app_fee := some 14
        fee := none
        customerEmail := some "payer@example.com"
        customerName := some "Pat Payer"
        meta := ⟨some "cccccccccccccccccccccccc",
                 some "0xB0B1B2B3B4B5B6B7B8B9C0C1C2C3C4C5C6C7C8C9", none, none⟩ }
    tx_ref := none
    status := none
    currency := none }

/-! ## Helper lemmas: the race machine invariant -/

theorem stepInv_preserves (shared : String) (i : Inv) (h : InvOk i) :
    InvOk (stepInv shared i).2 := by
  obtain ⟨pc, observed, paid⟩ := i
  cases pc
  case atRead =>
    simp only [InvOk] at h
    simp [stepInv, InvOk, h.2]
  case atGuard =>
    simp only [InvOk] at h
    by_cases hobs : observed = some "SETTLED"
    · simp [stepInv, hobs, InvOk, h.2]
    · obtain ⟨s, hs⟩ := Option.isSome_iff_exists.mp h.1
      simp [stepInv, hobs, InvOk, h.2]
      exact ⟨s, hs, fun hc => hobs (hc ▸ hs)⟩
  case atPayout =>
    simp only [InvOk] at h
    simp [stepInv, InvOk, h.1]
  case atFinalize =>
    simp only [InvOk] at h
    simp [stepInv, InvOk, h.1, h.2]
  case finished =>
    simpa [stepInv, InvOk] using h

theorem raceStep_preserves (r : Race) (w : Bool) (h : RaceOk r) :
    RaceOk (raceStep r w) := by
  obtain ⟨ha, hb⟩ := h
  cases w
  · exact ⟨ha, stepInv_preserves r.txStatus r.invB hb⟩
  · exact ⟨stepInv_preserves r.txStatus r.invA ha, hb⟩

theorem runRace_preserves (sched : List Bool) (r : Race) (h : RaceOk r) :
    RaceOk (runRace sched r) := by
  induction sched generalizing r with
  | nil => exact h
  | cons w ws ih => exact ih (raceStep r w) (raceStep_preserves r w h)

theorem raceInit_ok : RaceOk Race.init := by
  constructor <;> simp [Race.init, Inv.init, InvOk]

/-! ## Claim C7 -/

/-- C7 counterexample: `determineFiatOrTokenType` with
`paymentType = "CRYPTO_TO_FIAT"` and `tokenSymbol = "USDT"` does NOT classify
as `CRYPTO` — the `FIAT`-substring branch fires first because
`"CRYPTO_TO_FIAT"` contains `"FIAT"`. -/
theorem classification_crypto_to_fiat_cex :
    determineFiatOrTokenType (some "CRYPTO_TO_FIAT") (some "USDT") ≠ "CRYPTO" := by
  decide

/-- C7 (amended): `paymentType = "CRYPTO_TO_FIAT"` with `tokenSymbol = "USDT"`
classifies as `FIAT` (the `FIAT`-substring check precedes the `CRYPTO` one),
and an event with `paymentType` absent and symbol `"NGN"` classifies as
`FIAT`. -/
theorem classification_fiat_precedence :
    determineFiatOrTokenType (some "CRYPTO_TO_FIAT") (some "USDT") = "FIAT" ∧
    determineFiatOrTokenType none (some "NGN") = "FIAT" := by
  decide

/-! ## Claim C8 -/

/-- C8: normalizing the raw base-unit value `1500000` at 6 decimals yields
exactly `1.5`; scaling `1.5` back at 6 decimals (`ethers.parseUnits`) yields
exactly the base-unit integer `1500000`; the `toFixed(6)` step on the credit
path leaves `1.5` unchanged; and `1.5` is exactly representable as an
IEEE-754 double (`3 / 2 ^ 1`), so the JS `Number(...)` re-parse introduces no
floating error. -/
theorem amount_precision_round_trip :
    normalizeUnits 1500000 6 = 3 / 2 ∧
    parseUnits (3 / 2) 6 = some 1500000 ∧
    toFixedQ (3 / 2) 6 = 3 / 2 ∧
    floatExactlyRepresentable (normalizeUnits 1500000 6) := by
  refine ⟨by norm_num [normalizeUnits], by norm_num [parseUnits], by norm_num [toFixedQ], ?_⟩
  refine ⟨3, 1, ?_, by norm_num⟩
  norm_num [normalizeUnits]

/-! ## Claim C2 -/

/-- C2: `process` on a transaction whose status is `SETTLED` leaves the
stored document untouched, issues no external call, and returns the stored
settlement metadata; and because the store is unchanged, a second call
returns exactly the same metadata. -/
theorem process_settled_idempotent (env : SettleEnv) (t : Txn)
    (h : t.status = "SETTLED") :
    process env (some t) = (some t, [], .ok t.settlement) ∧
    process env ((process env (some t)).1) = (some t, [], .ok t.settlement) := by
  have h1 : process env (some t) = (some t, [], .ok t.settlement) := by
    simp [process, h]
  exact ⟨h1, by simp [h1]⟩

/-- C2 witness at a concrete settled transaction. -/
theorem process_settled_idempotent_witness :
    settledTxnFix.status = "SETTLED" ∧
    process envOkFix (some settledTxnFix) =
      (some settledTxnFix, [], .ok settledTxnFix.settlement) :=
  ⟨rfl, (process_settled_idempotent envOkFix settledTxnFix rfl).1⟩

/-! ## Claim C10 -/

/-- C10: a correctly-signed webhook whose `meta` yields neither a merchant id
nor a wallet address (after sanitization) is acknowledged with the body while
the ledger is untouched, no record call is made and no settlement runs. -/
theorem webhook_missing_merchant_noop (env : SettleEnv) (ledger : List Txn)
    (secret : String) (body : FlwBody)
    (h1 : webhookMerchantId body = none) (h2 : webhookMerchantWallet body = none) :
    handleWebhook env ledger secret (some secret) body =
      (.ok (body, ledger), ([], .ok none)) := by
  simp [handleWebhook, h1, h2]

/-- C10 witness: a concrete signed webhook with an empty merchant context. -/
theorem webhook_missing_merchant_noop_witness :
    webhookMerchantId orphanWebhookBodyFix = none ∧
    webhookMerchantWallet orphanWebhookBodyFix = none ∧
    handleWebhook envOkFix [] "whsec" (some "whsec") orphanWebhookBodyFix =
      (.ok (orphanWebhookBodyFix, []), ([], .ok none)) :=
  ⟨rfl, rfl, webhook_missing_merchant_noop envOkFix [] "whsec" orphanWebhookBodyFix rfl rfl⟩

/-! ## Claim C4 -/

/-- C4 counterexample: re-delivering a chain event that carries no status for
a reference whose stored record is `SETTLED` overwrites the record's status
back to `PENDING` — the upsert does not protect `SETTLED` records. -/
theorem upsert_status_regression_cex :
    (upsert [settledTxnFix]
        (buildBlockchainUpdate ctxCryptoFix staleChainEventFix 6 2)).map (·.status)
      = ["PENDING"] := by
  rfl

/-- C4 (amended): the upsert writes `status = uppercase(event.status)`,
defaulting to `PENDING` only when the event carries no truthy status, in both
the insert branch and the update branch; an existing record's status is
overwritten regardless of its current value, so `SETTLED`/`PROCESSING` can
regress to `PENDING` on a stale re-delivery. -/
theorem upsert_status_overwrite (ctx : MerchantContext) (e : ChainEvent)
    (decimals fiatDecimals : ℕ) (t : Txn) :
    (applyUpdate t (buildBlockchainUpdate ctx e decimals fiatDecimals)).status
      = jsToUpper (jsOrStrD e.status "PENDING") ∧
    (insertOfUpdate (buildBlockchainUpdate ctx e decimals fiatDecimals)).status
      = jsToUpper (jsOrStrD e.status "PENDING") := by
  constructor <;> rfl

/-! ## Helper lemmas: the ledger upsert -/

theorem matchKey_insertOfUpdate (u : TxnUpdate) :
    matchKey (insertOfUpdate u) u.merchantId u.reference = true := by
  simp [matchKey, insertOfUpdate]

theorem matchKey_applyUpdate (t : Txn) (u : TxnUpdate) :
    matchKey (applyUpdate t u) u.merchantId u.reference = true := by
  simp [matchKey, applyUpdate]

theorem countForKey_nil (m r : String) : countForKey [] m r = 0 := rfl

theorem countForKey_cons (t : Txn) (ts : List Txn) (m r : String) :
    countForKey (t :: ts) m r =
      (if matchKey t m r then 1 else 0) + countForKey ts m r := by
  by_cases hm : matchKey t m r = true
  · simp [countForKey, List.filter_cons, hm]
    omega
  · simp [countForKey, List.filter_cons, hm]

theorem applyUpdate_of_complete (t : Txn) (u : TxnUpdate) (h : CompleteUpdate u) :
    applyUpdate t u = insertOfUpdate u := by
  obtain ⟨h1, h2, h3, h4, h5, h6, h7⟩ := h
  obtain ⟨w1, hw1⟩ := Option.isSome_iff_exists.mp h1
  obtain ⟨w2, hw2⟩ := Option.isSome_iff_exists.mp h2
  obtain ⟨w3, hw3⟩ := Option.isSome_iff_exists.mp h3
  obtain ⟨w4, hw4⟩ := Option.isSome_iff_exists.mp h4
  obtain ⟨w5, hw5⟩ := Option.isSome_iff_exists.mp h5
  obtain ⟨w6, hw6⟩ := Option.isSome_iff_exists.mp h6
  obtain ⟨w7, hw7⟩ := Option.isSome_iff_exists.mp h7
  simp [applyUpdate, insertOfUpdate, hw1, hw2, hw3, hw4, hw5, hw6, hw7, Option.orElse]

theorem upsert_countForKey (ledger : List Txn) (u : TxnUpdate)
    (hcount : countForKey ledger u.merchantId u.reference ≤ 1) :
    countForKey (upsert ledger u) u.merchantId u.reference = 1 := by
  induction ledger with
  | nil => simp [upsert, countForKey_cons, countForKey_nil, matchKey_insertOfUpdate u]
  | cons t ts ih =>
    by_cases hm : matchKey t u.merchantId u.reference = true
    · have hts : countForKey ts u.merchantId u.reference = 0 := by
        rw [countForKey_cons, hm] at hcount
        simp at hcount
        omega
      simp [upsert, hm, countForKey_cons, matchKey_applyUpdate, hts]
    · rw [countForKey_cons] at hcount
      simp [hm] at hcount
      simp [upsert, hm, countForKey_cons, ih hcount]

theorem upsert_filter_eq (ledger : List Txn) (u : TxnUpdate)
    (hcount : countForKey ledger u.merchantId u.reference ≤ 1)
    (hc : CompleteUpdate u) :
    (upsert ledger u).filter (fun t => matchKey t u.merchantId u.reference)
      = [insertOfUpdate u] := by
  induction ledger with
  | nil => simp [upsert, List.filter_cons, matchKey_insertOfUpdate u]
  | cons t ts ih =>
    by_cases hm : matchKey t u.merchantId u.reference = true
    · have hts : countForKey ts u.merchantId u.reference = 0 := by
        rw [countForKey_cons, hm] at hcount
        simp at hcount
        omega
      have hfil : ts.filter (fun x => matchKey x u.merchantId u.reference) = [] := by
        rw [← List.length_eq_zero]
        exact hts
      simp [upsert, hm, List.filter_cons, matchKey_applyUpdate,
        applyUpdate_of_complete t u hc, hfil, matchKey_insertOfUpdate]
    · rw [countForKey_cons] at hcount
      simp [hm] at hcount
      simp [upsert, hm, List.filter_cons, ih hcount]

/-! ## Claim C3 -/

/-- C3: starting from a ledger holding at most one record for the
`(merchantId, reference)` pair, applying any two updates carrying that pair
(in particular the same event twice, in either order) leaves exactly one
record for the pair, and — when the last update carries all its fields —
that record is exactly the document built from the last applied event. -/
theorem upsert_last_writer_single_record (ledger : List Txn) (u1 u2 : TxnUpdate)
    (hm : u1.merchantId = u2.merchantId) (hr : u1.reference = u2.reference)
    (hcount : countForKey ledger u2.merchantId u2.reference ≤ 1)
    (hc : CompleteUpdate u2) :
    countForKey (upsert (upsert ledger u1) u2) u2.merchantId u2.reference = 1 ∧
    (upsert (upsert ledger u1) u2).filter
        (fun t => matchKey t u2.merchantId u2.reference) = [insertOfUpdate u2] := by
  have h1 : countForKey (upsert ledger u1) u2.merchantId u2.reference = 1 := by
    rw [← hm, ← hr] at hcount ⊢
    exact upsert_countForKey ledger u1 hcount
  exact ⟨upsert_countForKey (upsert ledger u1) u2 (le_of_eq h1),
         upsert_filter_eq (upsert ledger u1) u2 (le_of_eq h1) hc⟩

/-- C3 witness: delivering the concrete chain event for `KP-1` twice into an
empty ledger leaves exactly one record for the pair. -/
theorem upsert_last_writer_single_record_witness :
    CompleteUpdate (buildBlockchainUpdate ctxCryptoFix chainEventFix 6 2) ∧
    countForKey
      (upsert (upsert [] (buildBlockchainUpdate ctxCryptoFix chainEventFix 6 2))
        (buildBlockchainUpdate ctxCryptoFix chainEventFix 6 2))
      (buildBlockchainUpdate ctxCryptoFix chainEventFix 6 2).merchantId
      (buildBlockchainUpdate ctxCryptoFix chainEventFix 6 2).reference = 1 :=
  ⟨⟨rfl, rfl, rfl, rfl, rfl, rfl, rfl⟩,
   (upsert_last_writer_single_record []
     (buildBlockchainUpdate ctxCryptoFix chainEventFix 6 2)
     (buildBlockchainUpdate ctxCryptoFix chainEventFix 6 2) rfl rfl (by decide)
     ⟨rfl, rfl, rfl, rfl, rfl, rfl, rfl⟩).1⟩

/-! ## Claim C5 -/

/-- C5 counterexample: with an empty merchant store, a chain event recorded
with a syntactically valid but unknown `merchantId` (accompanied by the
event's wallet address) is reconciled successfully, attaching a Transaction
to a merchant that does not exist — `resolveMerchant` only requires the
merchant lookup to succeed when no wallet address accompanies the id. -/
theorem unknown_merchant_recorded_cex :
    envNoMerchantsFix.merchants = [] ∧
    recordResultMerchantId
      (recordBlockchainTransaction envNoMerchantsFix [] chainEventFix optsUnknownIdFix).1
      = some "cccccccccccccccccccccccc" :=
  ⟨rfl, rfl⟩

/-- C5 (amended): merchant resolution succeeds exactly when either a truthy,
syntactically valid `merchantId` is supplied and (the merchant exists OR a
wallet address accompanies the id — in which case existence is not checked),
or no `merchantId` is supplied and the lower-cased wallet address matches a
stored merchant.  All other events fail before any ledger write. -/
theorem resolveMerchant_ok_iff (merchants : List Merchant) (mid₀ wallet₀ : Option String) :
    exceptOk (resolveMerchant merchants mid₀ wallet₀) = true ↔
      (∃ m, jsOrStr mid₀ none = some m ∧ isValidObjectId m = true ∧
        ((findMerchantById merchants m).isSome ∨ (jsOrStr wallet₀ none).isSome)) ∨
      (jsOrStr mid₀ none = none ∧ ∃ w, jsOrStr wallet₀ none = some w ∧
        (findMerchantByWallet merchants (jsToLower w)).isSome) := by
  cases hmid : jsOrStr mid₀ none with
  | some m =>
    by_cases hv : isValidObjectId m = true
    · cases hfm : findMerchantById merchants m with
      | some mm => simp [resolveMerchant, hmid, hv, hfm, exceptOk]
      | none =>
        cases hw : jsOrStr wallet₀ none with
        | some w => simp [resolveMerchant, hmid, hv, hfm, hw, exceptOk]
        | none => simp [resolveMerchant, hmid, hv, hfm, hw, exceptOk]
    · have hv' : isValidObjectId m = false := by
        simpa using hv
      simp [resolveMerchant, hmid, hv', exceptOk]
  | none =>
    cases hw : jsOrStr wallet₀ none with
    | some w =>
      cases hfw : findMerchantByWallet merchants (jsToLower w) with
      | some mm => simp [resolveMerchant, hmid, hw, hfw, exceptOk]
      | none => simp [resolveMerchant, hmid, hw, hfw, exceptOk]
    | none => simp [resolveMerchant, hmid, hw, exceptOk]

/-! ## Claim C6 -/

/-- C6 counterexample: a fiat-path settlement whose required NGN to USD
conversion fails (feed down) does NOT end in `FAILED` — the failure is
swallowed, the transfer is still submitted in the unconverted currency, and
the transaction ends `SETTLED` after exactly one external payout call. -/
theorem fiat_conversion_failure_still_pays_cex :
    resolvePayoutMethod merchantFiatFix = "bank_transfer" ∧
    ((process envFeedDownFix (some ngnFiatTxnFix)).1.map (·.status)) = some "SETTLED" ∧
    (process envFeedDownFix (some ngnFiatTxnFix)).2.1.length = 1 ∧
    exceptOk (process envFeedDownFix (some ngnFiatTxnFix)).2.2 = true :=
  ⟨rfl, rfl, rfl, rfl⟩

/-- C6 (amended): on the crypto settlement path a failed conversion to USDT
propagates: `process` ends with the transaction `FAILED`, `settlement.error`
populated with the feed error, and no external payout call; the failed
transaction remains re-triggerable — the guard update of a later `settle`
call moves its status from `FAILED` back to `PROCESSING`.  (On the fiat path,
by contrast, conversion failures fall back to the unconverted currency and
the payout proceeds — see the counterexample.) -/
theorem crypto_conversion_failure_contained (env : SettleEnv) (t : Txn) (m : Merchant)
    (msg : String) (b : ℚ) (w : String)
    (hst : ¬ t.status = "SETTLED")
    (hm : findMerchantById env.merchants t.merchantId = some m)
    (hmethod : resolvePayoutMethod m = "crypto")
    (hw : jsOrStr m.walletAddress none = some w)
    (hbase : jsOrQ t.fiatEquivalent t.amount = some b)
    (hpos : 0 < b)
    (hcur : ¬ txnFallbackCurrency t = "USDT")
    (hconv : env.convert (txnFallbackCurrency t) "USDT" b = .error msg) :
    (process env (some t)).2.1 = [] ∧
    (process env (some t)).2.2 = .error msg ∧
    ((process env (some t)).1.map (·.status)) = some "FAILED" ∧
    (((process env (some t)).1.bind (·.settlement)).bind (·.error)) = some msg ∧
    (condMarkProcessing (((process env (some t)).1).getD t)).status = "PROCESSING" := by
  have hattempt : settleWithCrypto env t m = ([], .error msg) := by
    simp [settleWithCrypto, hw, hbase, hcur, hconv, not_le.mpr hpos]
  simp [process, hst, hm, hmethod, hattempt, condMarkProcessing]

/-- C6 witness: the concrete NGN transaction of the crypto merchant under a
dead price feed ends `FAILED` with the feed error recorded and no payout. -/
theorem crypto_conversion_failure_contained_witness :
    resolvePayoutMethod merchantCryptoFix = "crypto" ∧
    (process envFeedDownFix (some ngnCryptoTxnFix)).2.1 = [] ∧
    ((process envFeedDownFix (some ngnCryptoTxnFix)).1.map (·.status)) = some "FAILED" ∧
    (((process envFeedDownFix (some ngnCryptoTxnFix)).1.bind (·.settlement)).bind (·.error))
      = some "Failed to read price feed for NGN/USDT" ∧
    (condMarkProcessing
        (((process envFeedDownFix (some ngnCryptoTxnFix)).1).getD ngnCryptoTxnFix)).status
      = "PROCESSING" := by
  have h := crypto_conversion_failure_contained envFeedDownFix ngnCryptoTxnFix
    merchantCryptoFix "Failed to read price feed for NGN/USDT" 1000
    "0xb0b1b2b3b4b5b6b7b8b9c0c1c2c3c4c5c6c7c8c9"
    (by decide) rfl rfl rfl (by norm_num [jsOrQ, ngnCryptoTxnFix]) (by norm_num) (by decide) rfl
  exact ⟨rfl, h.1, h.2.2.1, h.2.2.2.1, h.2.2.2.2⟩

/-! ## Claim C9 -/

/-- A correctly-signed webhook is always acknowledged with success: every
branch of `handleWebhook` after the signature check — missing merchant
context, failed persistence (the try/catch of opayService.js lines 189–199),
or success — returns the body, never a thrown error. -/
theorem handleWebhook_signed_acks (env : SettleEnv) (ledger : List Txn)
    (secret : String) (body : FlwBody) :
    exceptOk (handleWebhook env ledger secret (some secret) body).1 = true := by
  unfold handleWebhook
  rw [if_neg (by simp)]
  by_cases h : ((webhookMerchantId body).isNone && (webhookMerchantWallet body).isNone) = true
  · simp only [h, if_true]
    rfl
  · simp only [h, if_false, Bool.not_eq_true] at h ⊢
    rw [if_neg (by simp [h])]
    cases hrec : (recordFlutterwaveTransaction env ledger body
        { merchantId := webhookMerchantId body
          merchantWalletAddress := webhookMerchantWallet body
          decimals := 6, fiatDecimals := 2 } none none none none).1 with
    | ok v => cases v with | mk t l => simp [hrec, exceptOk]
    | error msg => simp [hrec, exceptOk]

/-- C9: for every event whose upsert succeeds, the reconciliation call —
`recordBlockchainTransaction` for chain events, `recordFlutterwaveTransaction`
for fiat events, and the `handleWebhook` wrapper the fiat producer actually
hits — returns the upserted Transaction (respectively, the acknowledgment
body), and each caller-visible result is invariant under every choice of
settlement environment (price feed, transfer API, chain credit, clock):
settlement-time errors are never propagated to the event producer.  The last
conjunct covers the webhook's full absorption: any correctly-signed body is
acknowledged with success, even when persistence itself fails. -/
theorem reconcile_absorbs_settlement_errors (env : SettleEnv) (ledger : List Txn)
    (e : ChainEvent) (b : FlwBody) (opts : RecordOptions)
    (pt mth pyr : Option String) (fee : Option ℚ)
    (ctx ctxF ctxW : MerchantContext) (r fr : String) (secret : String)
    (h1 : jsOrStr e.txRef none = some r)
    (h2 : resolveMerchant env.merchants opts.merchantId
        (jsOrStr opts.merchantWalletAddress e.merchant) = .ok ctx)
    (h3 : flwTxRef b = some fr)
    (h4 : resolveMerchant env.merchants opts.merchantId opts.merchantWalletAddress = .ok ctxF)
    (h5 : resolveMerchant env.merchants (webhookMerchantId b) (webhookMerchantWallet b)
        = .ok ctxW)
    (h6 : ((webhookMerchantId b).isNone && (webhookMerchantWallet b).isNone) = false) :
    ((recordBlockchainTransaction env ledger e opts).1 =
        .ok (upsertReturned ledger (buildBlockchainUpdate ctx e opts.decimals opts.fiatDecimals),
             upsert ledger (buildBlockchainUpdate ctx e opts.decimals opts.fiatDecimals)) ∧
      ∀ conv flw credit clock,
        (recordBlockchainTransaction
            { merchants := env.merchants, convert := conv, flwTransfer := flw,
              creditMerchant := credit, now := clock } ledger e opts).1 =
          (recordBlockchainTransaction env ledger e opts).1) ∧
    ((recordFlutterwaveTransaction env ledger b opts pt mth pyr fee).1 =
        .ok (upsertReturned ledger
               (buildFlutterwaveUpdate ctxF b fr pt mth pyr fee opts.fiatDecimals),
             upsert ledger (buildFlutterwaveUpdate ctxF b fr pt mth pyr fee opts.fiatDecimals)) ∧
      ∀ conv flw credit clock,
        (recordFlutterwaveTransaction
            { merchants := env.merchants, convert := conv, flwTransfer := flw,
              creditMerchant := credit, now := clock } ledger b opts pt mth pyr fee).1 =
          (recordFlutterwaveTransaction env ledger b opts pt mth pyr fee).1) ∧
    ((handleWebhook env ledger secret (some secret) b).1 =
        .ok (b, upsert ledger (buildFlutterwaveUpdate ctxW b fr none none none none 2)) ∧
      ∀ conv flw credit clock,
        (handleWebhook
            { merchants := env.merchants, convert := conv, flwTransfer := flw,
              creditMerchant := credit, now := clock } ledger secret (some secret) b).1 =
          (handleWebhook env ledger secret (some secret) b).1) ∧
    ∀ (envAny : SettleEnv) (ledgerAny : List Txn) (bodyAny : FlwBody),
      exceptOk (handleWebhook envAny ledgerAny secret (some secret) bodyAny).1 = true := by
  refine ⟨⟨?_, ?_⟩, ⟨?_, ?_⟩, ⟨?_, ?_⟩, ?_⟩
  · simp [recordBlockchainTransaction, h1, h2]
  · intro conv flw credit clock
    simp [recordBlockchainTransaction, h1, h2]
  · simp [recordFlutterwaveTransaction, h3, h4]
  · intro conv flw credit clock
    simp [recordFlutterwaveTransaction, h3, h4]
  · simp [handleWebhook, h6, recordFlutterwaveTransaction, h3, h5]
  · intro conv flw credit clock
    simp [handleWebhook, h6, recordFlutterwaveTransaction, h3, h5]
  · intro envAny ledgerAny bodyAny
    exact handleWebhook_signed_acks envAny ledgerAny secret bodyAny

/-- C9 witness: concrete chain and webhook events whose background settlement
throws (merchant unknown to the settlement run) are all still acknowledged
with success on every path. -/
theorem reconcile_absorbs_settlement_errors_witness :
    jsOrStr chainEventFix.txRef none = some "KP-1" ∧
    flwTxRef merchantWebhookBodyFix = some "KP-55" ∧
    resolveMerchant envNoMerchantsFix.merchants optsUnknownIdWalletFix.merchantId
      optsUnknownIdWalletFix.merchantWalletAddress =
      .ok ⟨"cccccccccccccccccccccccc", some "0xb0b1b2b3b4b5b6b7b8b9c0c1c2c3c4c5c6c7c8c9"⟩ ∧
    exceptOk (recordBlockchainTransaction envNoMerchantsFix [] chainEventFix
        optsUnknownIdWalletFix).1 = true ∧
    exceptOk (recordFlutterwaveTransaction envNoMerchantsFix [] merchantWebhookBodyFix
        optsUnknownIdWalletFix none none none none).1 = true ∧
    exceptOk (recordFlutterwaveTransaction envNoMerchantsFix [] merchantWebhookBodyFix
        optsUnknownIdWalletFix none none none none).2.2 = false ∧
    exceptOk (handleWebhook envNoMerchantsFix [] "whsec" (some "whsec")
        merchantWebhookBodyFix).1 = true := by
  have h := reconcile_absorbs_settlement_errors envNoMerchantsFix [] chainEventFix
    merchantWebhookBodyFix optsUnknownIdWalletFix none none none none
    ⟨"cccccccccccccccccccccccc", some "0xb0b1b2b3b4b5b6b7b8b9c0c1c2c3c4c5c6c7c8c9"⟩
    ⟨"cccccccccccccccccccccccc", some "0xb0b1b2b3b4b5b6b7b8b9c0c1c2c3c4c5c6c7c8c9"⟩
    ⟨"cccccccccccccccccccccccc", some "0xb0b1b2b3b4b5b6b7b8b9c0c1c2c3c4c5c6c7c8c9"⟩
    "KP-1" "KP-55" "whsec" rfl rfl rfl rfl rfl rfl
  refine ⟨rfl, rfl, rfl, ?_, ?_, rfl, ?_⟩
  · rw [h.1.1]; rfl
  · rw [h.2.1.1]; rfl
  · rw [h.2.2.1.1]; rfl

/-! ## Claim C1 -/

/-- C1 counterexample: a schedule in which the second invocation reads the
status after the first has marked `PROCESSING` but before it records
`SETTLED` makes BOTH invocations issue the external payout — the loser
observes `PROCESSING` and still pays, so two concurrent `settle` calls on a
`PENDING` transaction do not result in exactly one payout. -/
theorem settle_race_two_payouts_cex :
    payoutCount (runRace [true, true, false, false, true, true, false, false] Race.init) = 2 ∧
    (runRace [true, true, false, false, true, true, false, false] Race.init).invB.observed
      = some "PROCESSING" ∧
    (runRace [true, true, false, false, true, true, false, false] Race.init).invA.pc
      = Stage.finished ∧
    (runRace [true, true, false, false, true, true, false, false] Race.init).invB.pc
      = Stage.finished := by
  decide

/-- C1 (amended): under every interleaving of two `settle` invocations on a
`PENDING` transaction, a completed invocation issues the external payout call
if and only if the status its initial read observed was not `SETTLED`.
Observing `PROCESSING` does not suppress the payout; only an invocation whose
read happens after the winner stored `SETTLED` skips, in which case exactly
one payout occurs. -/
theorem settle_race_payout_iff (sched : List Bool)
    (hA : (runRace sched Race.init).invA.pc = Stage.finished)
    (hB : (runRace sched Race.init).invB.pc = Stage.finished) :
    ((runRace sched Race.init).invA.paid = true ↔
      ∃ s, (runRace sched Race.init).invA.observed = some s ∧ s ≠ "SETTLED") ∧
    ((runRace sched Race.init).invB.paid = true ↔
      ∃ s, (runRace sched Race.init).invB.observed = some s ∧ s ≠ "SETTLED") := by
  obtain ⟨ha, hb⟩ := runRace_preserves sched Race.init raceInit_ok
  unfold InvOk at ha hb
  rw [hA] at ha
  rw [hB] at hb
  exact ⟨ha, hb⟩

/-- C1 witness: a schedule where the loser reads only after the winner stored
`SETTLED` — the loser observes `SETTLED`, skips, and exactly one payout
occurs. -/
theorem settle_race_payout_iff_witness :
    (runRace [true, true, true, true, false, false] Race.init).invA.pc = Stage.finished ∧
    (runRace [true, true, true, true, false, false] Race.init).invB.pc = Stage.finished ∧
    (runRace [true, true, true, true, false, false] Race.init).invB.observed = some "SETTLED" ∧
    payoutCount (runRace [true, true, true, true, false, false] Race.init) = 1 ∧
    ((runRace [true, true, true, true, false, false] Race.init).invB.paid = true ↔
      ∃ s, (runRace [true, true, true, true, false, false] Race.init).invB.observed = some s ∧
        s ≠ "SETTLED") :=
  ⟨by decide, by decide, by decide, by decide,
   (settle_race_payout_iff [true, true, true, true, false, false] (by decide) (by decide)).2⟩

end KlevaPay
